import Mathlib

/-!
A shallow embedding of `erpnext/buying/doctype/supplier_scorecard_variable/
supplier_scorecard_variable.py`: the supplier-scorecard metric catalogue and
the variable-path validator.

Modelling conventions:
* Dates are integers (day numbers); `DATEDIFF(a, b)` is `a - b` and Python
  date subtraction (`getdate(end) - getdate(start)`, taking `.days`) is
  likewise plain integer subtraction.
* Numeric quantities, rates and amounts are integers.
* Each SQL query is a filter over the cross join of the listed tables; an
  SQL `SUM` is `NULL` (here `none`) over an empty row set, and `COUNT` of a
  non-null column is the row count.
* The Python pattern `if not data: data = 0` maps both `None` and `0` to
  `0`, which is value-equal to `Option.getD 0` on the nullable scalar.
-/

namespace ErpnextScorecard

/-- The scorecard context: a supplier and the closed period
`[start_date, end_date]` that every metric reads. -/
structure Scorecard where
  supplier : String
  start_date : Int
  end_date : Int
  deriving DecidableEq

/-- A `tabPurchase Order` row, restricted to the columns the module reads. -/
structure PurchaseOrder where
  name : String
  supplier : String
  docstatus : Int
  transaction_date : Int
  total_qty : Int
  deriving DecidableEq

/-- A `tabPurchase Order Item` row. -/
structure POItem where
  name : String
  parent : String
  docstatus : Int
  qty : Int
  received_qty : Int
  base_amount : Int
  schedule_date : Int
  deriving DecidableEq

/-- A `tabPurchase Receipt` row. -/
structure PurchaseReceipt where
  name : String
  supplier : String
  posting_date : Int
  deriving DecidableEq

/-- A `tabPurchase Receipt Item` row. -/
structure PRItem where
  name : String
  parent : String
  purchase_order_item : String
  docstatus : Int
  qty : Int
  received_qty : Int
  rejected_qty : Int
  base_rate : Int
  base_amount : Int
  deriving DecidableEq

/-- A `tabRequest for Quotation` row. -/
structure RFQ where
  name : String
  transaction_date : Int
  deriving DecidableEq

/-- A `tabRequest for Quotation Item` row. -/
structure RFQItem where
  name : String
  parent : String
  docstatus : Int
  deriving DecidableEq

/-- A `tabRequest for Quotation Supplier` row. -/
structure RFQSupplier where
  parent : String
  supplier : String
  deriving DecidableEq

/-- A `tabSupplier Quotation` row. -/
structure SupplierQuotation where
  name : String
  supplier : String
  transaction_date : Int
  deriving DecidableEq

/-- A `tabSupplier Quotation Item` row. -/
structure SQItem where
  name : String
  parent : String
  request_for_quotation_item : String
  docstatus : Int
  deriving DecidableEq

/-- A `Supplier Score` record: per-supplier manually entered sub-scores.
Every field is nullable (`None` when never entered). -/
structure SupplierScore where
  name : String
  compliance_of_service : Option Int
  quality_certificate : Option Int
  technological_infrastructure : Option Int
  financial_capacity : Option Int
  market_image : Option Int
  on_time_delivery : Option Int
  fast_response_to_urgent_requests : Option Int
  shipping_document : Option Int
  capacity_adequacy : Option Int
  payment_terms : Option Int
  competitive_pricing : Option Int
  on_time_offer : Option Int
  revised_offer : Option Int
  number_of_complaints : Option Int
  approach_to_complaints : Option Int
  quick_solution : Option Int
  effective_solution : Option Int
  deriving DecidableEq

/-- The relational store the catalogue queries. -/
structure Store where
  purchase_orders : List PurchaseOrder
  po_items : List POItem
  purchase_receipts : List PurchaseReceipt
  pr_items : List PRItem
  rfqs : List RFQ
  rfq_items : List RFQItem
  rfq_suppliers : List RFQSupplier
  supplier_quotations : List SupplierQuotation
  sq_items : List SQItem
  supplier_scores : List SupplierScore
  deriving DecidableEq

/-- Cross join of two tables. -/
def joinRows (xs : List α) (ys : List β) : List (α × β) :=
  xs.flatMap fun x => ys.map fun y => (x, y)

/-- Cross join of three tables. -/
def joinRows3 (xs : List α) (ys : List β) (zs : List γ) : List (α × β × γ) :=
  xs.flatMap fun x => ys.flatMap fun y => zs.map fun z => (x, y, z)

/-- Cross join of four tables. -/
def joinRows4 (xs : List α) (ys : List β) (zs : List γ) (ws : List δ) :
    List (α × β × γ × δ) :=
  xs.flatMap fun x => ys.flatMap fun y => zs.flatMap fun z => ws.map fun w => (x, y, z, w)

/-- Cross join of five tables. -/
def joinRows5 (xs : List α) (ys : List β) (zs : List γ) (ws : List δ) (vs : List ε) :
    List (α × β × γ × δ × ε) :=
  xs.flatMap fun x => ys.flatMap fun y => zs.flatMap fun z => ws.flatMap fun w =>
    vs.map fun v => (x, y, z, w, v)

/-- SQL `SUM(f)` over a row set: `NULL` (none) when the set is empty. -/
def sqlSum (rows : List α) (f : α → Int) : Option Int :=
  match rows with
  | [] => none
  | _ => some ((rows.map f).sum)

/-- The Python null-coalescing applied to every nullable scalar the module
reads back (`if not data: data = 0`, `... or 0`): both `None` and `0` are
falsy, so in value it is exactly `Option.getD 0`. -/
def pyOrZero : Option Int → Int
  | none => 0
  | some v => v

/-- Embeds `get_total_workdays`: the signed number of days
`getdate(end_date) - getdate(start_date)`, with no clamping. -/
def get_total_workdays (s : Scorecard) : Int :=
  s.end_date - s.start_date

/-- Row set of the `get_item_workdays` query (also the second query of
`get_total_days_late`, whose WHERE clause is identical): order lines of the
supplier, not fully received, scheduled in the period.  Note there is no
docstatus filter here. -/
def itemWorkdaysRows (db : Store) (s : Scorecard) : List (POItem × PurchaseOrder) :=
  (joinRows db.po_items db.purchase_orders).filter fun (i, po) =>
    po.supplier == s.supplier
      && decide (i.received_qty < i.qty)
      && decide (s.start_date ≤ i.schedule_date) && decide (i.schedule_date ≤ s.end_date)
      && i.parent == po.name

/-- Embeds `get_item_workdays`: `SUM(DATEDIFF(end_date, schedule_date) * qty)`
over the not-fully-received lines, null-coalesced to 0. -/
def get_item_workdays (db : Store) (s : Scorecard) : Int :=
  pyOrZero (sqlSum (itemWorkdaysRows db s) fun (i, _) =>
    (s.end_date - i.schedule_date) * i.qty)

/-- Row set shared by `get_total_cost_of_shipments` and `get_total_shipments`
(their WHERE clauses are identical): confirmed (docstatus = 1) order lines of
the supplier scheduled in the period. -/
def confirmedScheduledRows (db : Store) (s : Scorecard) : List (POItem × PurchaseOrder) :=
  (joinRows db.po_items db.purchase_orders).filter fun (i, po) =>
    po.supplier == s.supplier
      && decide (s.start_date ≤ i.schedule_date) && decide (i.schedule_date ≤ s.end_date)
      && i.docstatus == 1
      && i.parent == po.name

/-- Embeds `get_total_cost_of_shipments`: `SUM(po_item.base_amount)` over the
confirmed scheduled lines, null-coalesced to 0. -/
def get_total_cost_of_shipments (db : Store) (s : Scorecard) : Int :=
  pyOrZero (sqlSum (confirmedScheduledRows db s) fun (i, _) => i.base_amount)

/-- Row set of the `get_cost_of_on_time_shipments` query: receipt lines
(docstatus = 1) linked to an order line of the supplier scheduled in the
period, with `po_item.schedule_date >= pr.posting_date`.  There is no
`po_item.docstatus` filter. -/
def onTimeCostRows (db : Store) (s : Scorecard) :
    List (POItem × PRItem × PurchaseOrder × PurchaseReceipt) :=
  (joinRows4 db.po_items db.pr_items db.purchase_orders db.purchase_receipts).filter
    fun (poi, pri, po, pr) =>
      po.supplier == s.supplier
        && decide (s.start_date ≤ poi.schedule_date) && decide (poi.schedule_date ≤ s.end_date)
        && decide (pr.posting_date ≤ poi.schedule_date)
        && pri.docstatus == 1
        && pri.purchase_order_item == poi.name
        && poi.parent == po.name
        && pri.parent == pr.name

/-- Embeds `get_cost_of_on_time_shipments`: `SUM(pr_item.base_amount)` over
`onTimeCostRows`, null-coalesced to 0. -/
def get_cost_of_on_time_shipments (db : Store) (s : Scorecard) : Int :=
  pyOrZero (sqlSum (onTimeCostRows db s) fun (_, pri, _, _) => pri.base_amount)

/-- Embeds `get_cost_of_delayed_shipments`: the literal difference of the two
other cost metrics. -/
def get_cost_of_delayed_shipments (db : Store) (s : Scorecard) : Int :=
  get_total_cost_of_shipments db s - get_cost_of_on_time_shipments db s

/-- Row set of the first `get_total_days_late` query: receipt lines
(docstatus = 1) linked to an order line of the supplier scheduled in the
period, received late (`po_item.schedule_date < pr.posting_date`). -/
def deliveredLateRows (db : Store) (s : Scorecard) :
    List (POItem × PRItem × PurchaseOrder × PurchaseReceipt) :=
  (joinRows4 db.po_items db.pr_items db.purchase_orders db.purchase_receipts).filter
    fun (poi, pri, po, pr) =>
      po.supplier == s.supplier
        && decide (s.start_date ≤ poi.schedule_date) && decide (poi.schedule_date ≤ s.end_date)
        && decide (poi.schedule_date < pr.posting_date)
        && pri.docstatus == 1
        && pri.purchase_order_item == poi.name
        && poi.parent == po.name
        && pri.parent == pr.name

/-- Embeds `get_total_days_late`: the coalesced
`SUM(DATEDIFF(pr.posting_date, po_item.schedule_date) * pr_item.qty)` over
the received-late lines, plus the coalesced
`SUM(DATEDIFF(end_date, po_item.schedule_date) * (qty - received_qty))` over
the not-fully-received lines (that second query's WHERE clause is the one of
`get_item_workdays`).  The code returns `missed + delivered`. -/
def get_total_days_late (db : Store) (s : Scorecard) : Int :=
  let total_delivered_late_days :=
    pyOrZero (sqlSum (deliveredLateRows db s) fun (poi, pri, _, pr) =>
      (pr.posting_date - poi.schedule_date) * pri.qty)
  let total_missed_late_days :=
    pyOrZero (sqlSum (itemWorkdaysRows db s) fun (i, _) =>
      (s.end_date - i.schedule_date) * (i.qty - i.received_qty))
  total_missed_late_days + total_delivered_late_days

/-- Row set of the `get_on_time_shipments` query: receipt lines
(docstatus = 1) linked to an order line of the supplier scheduled in the
period, with matching quantities and `po_item.schedule_date <= pr.posting_date`
(note the direction: the receipt is posted on or AFTER the schedule date). -/
def onTimeShipmentRows (db : Store) (s : Scorecard) :
    List (POItem × PRItem × PurchaseOrder × PurchaseReceipt) :=
  (joinRows4 db.po_items db.pr_items db.purchase_orders db.purchase_receipts).filter
    fun (poi, pri, po, pr) =>
      po.supplier == s.supplier
        && decide (s.start_date ≤ poi.schedule_date) && decide (poi.schedule_date ≤ s.end_date)
        && decide (poi.schedule_date ≤ pr.posting_date)
        && poi.qty == pri.qty
        && pri.docstatus == 1
        && pri.purchase_order_item == poi.name
        && poi.parent == po.name
        && pri.parent == pr.name

/-- Embeds `get_on_time_shipments`: `COUNT(pr_item.qty)` over
`onTimeShipmentRows` (the `if not ...: ... = 0` coalescing is the identity on
a count). -/
def get_on_time_shipments (db : Store) (s : Scorecard) : Int :=
  ((onTimeShipmentRows db s).length : Int)

/-- Embeds `get_total_shipments`: `COUNT(po_item.base_amount)` over the
confirmed scheduled order lines. -/
def get_total_shipments (db : Store) (s : Scorecard) : Int :=
  ((confirmedScheduledRows db s).length : Int)

/-- Embeds `get_late_shipments`: the literal difference of the two other
shipment counts. -/
def get_late_shipments (db : Store) (s : Scorecard) : Int :=
  get_total_shipments db s - get_on_time_shipments db s

/-- Row set shared by all six receipt-total queries (`get_total_received`,
`get_total_received_amount`, `get_total_received_items`,
`get_total_rejected_amount`, `get_total_rejected_items`,
`get_total_accepted_amount`, `get_total_accepted_items`): their WHERE clauses
are identical — receipt lines (docstatus = 1) of receipts of the supplier
posted in the period. -/
def receiptRows (db : Store) (s : Scorecard) : List (PRItem × PurchaseReceipt) :=
  (joinRows db.pr_items db.purchase_receipts).filter fun (pri, pr) =>
    pr.supplier == s.supplier
      && decide (s.start_date ≤ pr.posting_date) && decide (pr.posting_date ≤ s.end_date)
      && pri.docstatus == 1
      && pri.parent == pr.name

/-- Embeds `get_total_received`: `COUNT(pr_item.base_amount)` over the
receipt lines in the period. -/
def get_total_received (db : Store) (s : Scorecard) : Int :=
  ((receiptRows db s).length : Int)

/-- Embeds `get_total_received_amount`:
`SUM(pr_item.received_qty * pr_item.base_rate)`, null-coalesced to 0. -/
def get_total_received_amount (db : Store) (s : Scorecard) : Int :=
  pyOrZero (sqlSum (receiptRows db s) fun (pri, _) => pri.received_qty * pri.base_rate)

/-- Embeds `get_total_received_items`: `SUM(pr_item.received_qty)`,
null-coalesced to 0. -/
def get_total_received_items (db : Store) (s : Scorecard) : Int :=
  pyOrZero (sqlSum (receiptRows db s) fun (pri, _) => pri.received_qty)

/-- Embeds `get_total_rejected_amount`:
`SUM(pr_item.rejected_qty * pr_item.base_rate)`, null-coalesced to 0. -/
def get_total_rejected_amount (db : Store) (s : Scorecard) : Int :=
  pyOrZero (sqlSum (receiptRows db s) fun (pri, _) => pri.rejected_qty * pri.base_rate)

/-- Embeds `get_total_rejected_items`: `SUM(pr_item.rejected_qty)`,
null-coalesced to 0. -/
def get_total_rejected_items (db : Store) (s : Scorecard) : Int :=
  pyOrZero (sqlSum (receiptRows db s) fun (pri, _) => pri.rejected_qty)

/-- Embeds `get_total_accepted_amount`:
`SUM(pr_item.qty * pr_item.base_rate)`, null-coalesced to 0. -/
def get_total_accepted_amount (db : Store) (s : Scorecard) : Int :=
  pyOrZero (sqlSum (receiptRows db s) fun (pri, _) => pri.qty * pri.base_rate)

/-- Embeds `get_total_accepted_items`: `SUM(pr_item.qty)`, null-coalesced
to 0. -/
def get_total_accepted_items (db : Store) (s : Scorecard) : Int :=
  pyOrZero (sqlSum (receiptRows db s) fun (pri, _) => pri.qty)

/-- Row set of the `get_ordered_qty` query: confirmed (docstatus = 1)
purchase orders of the supplier with `transaction_date` in the period. -/
def orderedQtyRows (db : Store) (s : Scorecard) : List PurchaseOrder :=
  db.purchase_orders.filter fun po =>
    po.supplier == s.supplier && po.docstatus == 1
      && decide (s.start_date ≤ po.transaction_date)
      && decide (po.transaction_date ≤ s.end_date)

/-- Embeds `get_ordered_qty`: `SUM(po.total_qty)` over confirmed orders of
the supplier with `transaction_date` in the period, `or 0`. -/
def get_ordered_qty (db : Store) (s : Scorecard) : Int :=
  pyOrZero (sqlSum (orderedQtyRows db s) fun po => po.total_qty)

/-- Row set shared by `get_rfq_total_number` and `get_rfq_total_items`
(identical WHERE clauses; `COUNT(rfq.name)` and `COUNT(rfq_item.name)` both
count the join rows since the columns are non-null): RFQ items (docstatus = 1)
of RFQs addressed to the supplier with `transaction_date` in the period. -/
def rfqRows (db : Store) (s : Scorecard) : List (RFQItem × RFQSupplier × RFQ) :=
  (joinRows3 db.rfq_items db.rfq_suppliers db.rfqs).filter fun (ri, rs, rfq) =>
    rs.supplier == s.supplier
      && decide (s.start_date ≤ rfq.transaction_date)
      && decide (rfq.transaction_date ≤ s.end_date)
      && ri.docstatus == 1
      && ri.parent == rfq.name
      && rs.parent == rfq.name

/-- Embeds `get_rfq_total_number`: `COUNT(rfq.name)` over `rfqRows`. -/
def get_rfq_total_number (db : Store) (s : Scorecard) : Int :=
  ((rfqRows db s).length : Int)

/-- Embeds `get_rfq_total_items`: `COUNT(rfq_item.name)` over `rfqRows`. -/
def get_rfq_total_items (db : Store) (s : Scorecard) : Int :=
  ((rfqRows db s).length : Int)

/-- Row set shared by `get_sq_total_number`, `get_sq_total_items` and
`get_rfq_response_days` (identical WHERE clauses): supplier-quotation items
(docstatus = 1) answering RFQ items (docstatus = 1) of RFQs addressed to the
supplier with `transaction_date` in the period, the quotation itself from the
supplier. -/
def sqRows (db : Store) (s : Scorecard) :
    List (RFQItem × SQItem × SupplierQuotation × RFQSupplier × RFQ) :=
  (joinRows5 db.rfq_items db.sq_items db.supplier_quotations db.rfq_suppliers db.rfqs).filter
    fun (ri, si, sq, rs, rfq) =>
      rs.supplier == s.supplier
        && decide (s.start_date ≤ rfq.transaction_date)
        && decide (rfq.transaction_date ≤ s.end_date)
        && si.request_for_quotation_item == ri.name
        && si.docstatus == 1
        && ri.docstatus == 1
        && sq.supplier == s.supplier
        && si.parent == sq.name
        && ri.parent == rfq.name
        && rs.parent == rfq.name

/-- Embeds `get_sq_total_number`: `COUNT(sq.name)` over `sqRows`. -/
def get_sq_total_number (db : Store) (s : Scorecard) : Int :=
  ((sqRows db s).length : Int)

/-- Embeds `get_sq_total_items`: `COUNT(sq_item.name)` over `sqRows`. -/
def get_sq_total_items (db : Store) (s : Scorecard) : Int :=
  ((sqRows db s).length : Int)

/-- Embeds `get_rfq_response_days`:
`SUM(DATEDIFF(sq.transaction_date, rfq.transaction_date))` over `sqRows`,
null-coalesced to 0. -/
def get_rfq_response_days (db : Store) (s : Scorecard) : Int :=
  pyOrZero (sqlSum (sqRows db s) fun (_, _, sq, _, rfq) =>
    sq.transaction_date - rfq.transaction_date)

/-- How a score-aggregate call can fail: `frappe.throw` raises a blocking
validation error with a message, while unpacking the `None` that
`frappe.db.get_value` returns for a missing record raises a bare Python
`TypeError`. -/
inductive ScoreError where
  | thrown (msg : String)
  | typeError
  deriving DecidableEq

/-- `frappe.db.exists / frappe.db.get_value` on doctype `Supplier Score` keyed
by the scorecard's supplier: the record whose `name` is the supplier. -/
def findScore (db : Store) (supplier : String) : Option SupplierScore :=
  db.supplier_scores.find? fun r => r.name == supplier

/-- Python `x or 0` on a nullable score field: `None` and `0` are both falsy,
so in value this is `Option.getD 0`. -/
def orZero : Option Int → Int
  | none => 0
  | some v => v

/-- An apostrophe (the message of `get_all_quality_score` quotes the supplier
name with apostrophes). -/
def squote : String := String.singleton (Char.ofNat 39)

/-- The text before the supplier name in the `get_all_quality_score` missing
record message. -/
def qualityMissingMsgPre : String := "Supplier " ++ squote

/-- The text after the supplier name in the `get_all_quality_score` missing
record message. -/
def qualityMissingMsgPost : String :=
  squote ++ " does not exist in Supplier Score List. Please select a created supplier"

/-- The f-string message of `get_all_quality_score`. -/
def qualityMissingMsg (supplier : String) : String :=
  qualityMissingMsgPre ++ supplier ++ qualityMissingMsgPost

/-- Embeds `get_all_quality_score`: first checks `frappe.db.exists` and
throws (naming the supplier) when no `Supplier Score` record exists, then
sums the five quality fields, each `or 0`. -/
def get_all_quality_score (db : Store) (s : Scorecard) : Except ScoreError Int :=
  match findScore db s.supplier with
  | none => .error (.thrown (qualityMissingMsg s.supplier))
  | some r =>
    let compliance_score := orZero r.compliance_of_service
    let quality_score := orZero r.quality_certificate
    let tech_infra_score := orZero r.technological_infrastructure
    let financial_score := orZero r.financial_capacity
    let market_image_score := orZero r.market_image
    .ok (compliance_score + quality_score + tech_infra_score + financial_score
      + market_image_score)

/-- Embeds `get_all_delivery_score`: no existence check — when the record is
missing, `frappe.db.get_value` yields `None` and the tuple unpacking raises
`TypeError`; otherwise sums the four delivery fields, each `or 0`. -/
def get_all_delivery_score (db : Store) (s : Scorecard) : Except ScoreError Int :=
  match findScore db s.supplier with
  | none => .error .typeError
  | some r =>
    .ok (orZero r.on_time_delivery + orZero r.fast_response_to_urgent_requests
      + orZero r.shipping_document + orZero r.capacity_adequacy)

/-- Embeds `get_all_price_score`: no existence check, same shape as
`get_all_delivery_score` over the four price fields. -/
def get_all_price_score (db : Store) (s : Scorecard) : Except ScoreError Int :=
  match findScore db s.supplier with
  | none => .error .typeError
  | some r =>
    .ok (orZero r.payment_terms + orZero r.competitive_pricing
      + orZero r.on_time_offer + orZero r.revised_offer)

/-- Embeds `get_all_customer_satisfaction_score`: no existence check, same
shape over the four customer-satisfaction fields. -/
def get_all_customer_satisfaction_score (db : Store) (s : Scorecard) : Except ScoreError Int :=
  match findScore db s.supplier with
  | none => .error .typeError
  | some r =>
    .ok (orZero r.number_of_complaints + orZero r.approach_to_complaints
      + orZero r.quick_solution + orZero r.effective_solution)

/-- The Python exceptions relevant to `validate_path_exists`: the caught
`AttributeError`, and exceptions the `try` block does not catch, such as an
`ImportError` for a missing module, or `TypeError`. -/
inductive PyExc where
  | attributeError
  | importError
  | typeError
  deriving DecidableEq

/-- Outcome of `SupplierScorecardVariable.validate_path_exists`: success, a
`frappe.throw(..., VariablePathNotFound)` validation error with its message,
or an uncaught Python exception propagating out of the validator. -/
inductive ValidateResult where
  | ok
  | validationError (msg : String)
  | uncaught (e : PyExc)
  deriving DecidableEq

/-- The message `frappe.throw` is given in both branches of
`validate_path_exists`: `"Could not find path for " + self.path`. -/
def pathNotFoundMsg (path : String) : String :=
  "Could not find path for " ++ path

/-- The 26 metric functions defined at module level (the Metric Catalogue). -/
def catalogueFunctionNames : List String :=
  ["get_total_workdays", "get_item_workdays", "get_total_cost_of_shipments",
   "get_cost_of_delayed_shipments", "get_cost_of_on_time_shipments",
   "get_total_days_late", "get_on_time_shipments", "get_late_shipments",
   "get_total_received", "get_total_received_amount", "get_total_received_items",
   "get_total_rejected_amount", "get_total_rejected_items",
   "get_total_accepted_amount", "get_total_accepted_items", "get_total_shipments",
   "get_ordered_qty", "get_rfq_total_number", "get_rfq_total_items",
   "get_sq_total_number", "get_sq_total_items", "get_rfq_response_days",
   "get_all_quality_score", "get_all_delivery_score", "get_all_price_score",
   "get_all_customer_satisfaction_score"]

/-- The module-level bindings visible in the source file: the imports
(`sys`, `frappe`, `_`, `Document`, `Sum`, `getdate`), the two classes defined
in the file, and the catalogue functions. -/
def moduleBindingNames : List String :=
  ["sys", "frappe", "_", "Document", "Sum", "getdate",
   "VariablePathNotFound", "SupplierScorecardVariable"] ++ catalogueFunctionNames

/-- The attributes a CPython module object carries implicitly, beyond the
module-level bindings of its source: the interpreter-supplied entries of the
module's `__dict__` (`__name__`, `__doc__`, `__package__`, `__loader__`,
`__spec__`, `__file__`, `__cached__`, `__builtins__`) and the attributes
inherited from the module type and `object`.  `hasattr` is true for each of
these.  The list is that of CPython 3.11 (checked by importing a module and
taking the union of its `__dict__` keys and `dir` of the module type); the
margins are version-dependent — `__getstate__` exists from CPython 3.11,
`__annotations__` is auto-created on access from 3.10 — which would only
add or drop entries of this list, not change any theorem's structure. -/
def implicitModuleAttrNames : List String :=
  ["__annotations__", "__builtins__", "__cached__", "__class__", "__delattr__",
   "__dict__", "__dir__", "__doc__", "__eq__", "__file__", "__format__",
   "__ge__", "__getattribute__", "__getstate__", "__gt__", "__hash__",
   "__init__", "__init_subclass__", "__le__", "__loader__", "__lt__",
   "__name__", "__ne__", "__new__", "__package__", "__reduce__",
   "__reduce_ex__", "__repr__", "__setattr__", "__sizeof__", "__spec__",
   "__str__", "__subclasshook__"]

/-- The names `hasattr(sys.modules[__name__], path)` finds: every module-level
binding of the file together with the implicit attributes of the module
object. -/
def moduleAttrNames : List String :=
  moduleBindingNames ++ implicitModuleAttrNames

/-- Python `"." in path`, written over the string's character list (the
membership test of the source). -/
def containsDot (path : String) : Bool :=
  path.data.any fun c => c == Char.ofNat 46

/-- Embeds `SupplierScorecardVariable.validate_path_exists`.  The dotted-path
branch calls the sibling module's `import_string_path` helper (abstracted as
the `helper` argument) inside a `try` that catches only `AttributeError`,
converting it to the `VariablePathNotFound` throw; any other exception
propagates.  The bare-name branch checks `hasattr` on the module. -/
def validate_path_exists (helper : String → Except PyExc Unit) (path : String) :
    ValidateResult :=
  if containsDot path then
    match helper path with
    | .ok _ => .ok
    | .error .attributeError => .validationError (pathNotFoundMsg path)
    | .error e => .uncaught e
  else
    if moduleAttrNames.contains path then .ok
    else .validationError (pathNotFoundMsg path)

/-- A Python environment for the import helper: which root modules are
importable, and which dotted attribute paths exist. -/
structure PyEnv where
  modules : List String
  attrPaths : List String

/-- Python `path.split(".")` on the character list: splits at every dot,
keeping empty components. -/
def splitDotChars : List Char → List Char → List (List Char)
  | [], acc => [acc.reverse]
  | x :: xs, acc =>
    if x == Char.ofNat 46 then acc.reverse :: splitDotChars xs []
    else splitDotChars xs (x :: acc)

/-- Python `path.split(".")` as a list of strings. -/
def pySplitDot (path : String) : List String :=
  (splitDotChars path.data []).map fun cs => String.mk cs

/-- Modelled from the spec: the sibling module's path-import helper
(`supplier_scorecard_period.import_string_path`, whose source is not under
`src/`), described as resolving a dotted path by importing its root module
and then chaining attribute lookups; importing a missing root module raises
`ImportError`, a missing attribute raises `AttributeError`. -/
def import_string_path (env : PyEnv) (path : String) : Except PyExc Unit :=
  match pySplitDot path with
  | [] => .ok ()
  | root :: rest =>
    if env.modules.contains root then resolveAttrChain env root rest
    else .error .importError
where
  /-- Chained `getattr` along the remaining components. -/
  resolveAttrChain (env : PyEnv) (cur : String) : List String → Except PyExc Unit
    | [] => .ok ()
    | a :: rest =>
      let nxt := cur ++ String.singleton (Char.ofNat 46) ++ a
      if env.attrPaths.contains nxt then resolveAttrChain env nxt rest
      else .error .attributeError

deriving instance DecidableEq for Except

section ConcreteData

/-- A store with no purchase, receipt, RFQ or quotation rows (and no
supplier-score records). -/
def emptyStore : Store :=
  { purchase_orders := [], po_items := [], purchase_receipts := [], pr_items := [],
    rfqs := [], rfq_items := [], rfq_suppliers := [], supplier_quotations := [],
    sq_items := [], supplier_scores := [] }

/-- The spec scenario period: supplier `S1`, `2024-01-01 .. 2024-01-31`
(day numbers 1 .. 31). -/
def janPeriod : Scorecard := { supplier := "S1", start_date := 1, end_date := 31 }

/-- A confirmed purchase order of supplier `S1`. -/
def po1 : PurchaseOrder :=
  { name := "PO-1", supplier := "S1", docstatus := 1, transaction_date := 1,
    total_qty := 10 }

/-- The spec scenario's confirmed order line: `qty = 10`,
`received_qty = 10`, `schedule_date = 2024-01-05` (day 5). -/
def poi1 : POItem :=
  { name := "POI-1", parent := "PO-1", docstatus := 1, qty := 10,
    received_qty := 10, base_amount := 1000, schedule_date := 5 }

/-- A receipt of `S1` posted `2024-01-04` (day 4), one day early. -/
def prEarly : PurchaseReceipt := { name := "PR-1", supplier := "S1", posting_date := 4 }

/-- A receipt of `S1` posted `2024-01-06` (day 6), one day late. -/
def prLate : PurchaseReceipt := { name := "PR-1", supplier := "S1", posting_date := 6 }

/-- The spec scenario's receipt line: `qty = 10`, linked to `POI-1`. -/
def pri1 : PRItem :=
  { name := "PRI-1", parent := "PR-1", purchase_order_item := "POI-1",
    docstatus := 1, qty := 10, received_qty := 10, rejected_qty := 0,
    base_rate := 100, base_amount := 1000 }

/-- The spec scenario store: one confirmed order line, one matching receipt
line posted one day before the schedule date. -/
def earlyReceiptStore : Store :=
  { purchase_orders := [po1], po_items := [poi1], purchase_receipts := [prEarly],
    pr_items := [pri1],
    rfqs := [], rfq_items := [], rfq_suppliers := [], supplier_quotations := [],
    sq_items := [], supplier_scores := [] }

/-- The same store with the receipt posted one day after the schedule date. -/
def lateReceiptStore : Store :=
  { purchase_orders := [po1], po_items := [poi1], purchase_receipts := [prLate],
    pr_items := [pri1],
    rfqs := [], rfq_items := [], rfq_suppliers := [], supplier_quotations := [],
    sq_items := [], supplier_scores := [] }

/-- A draft (docstatus = 0) order line: excluded from
`get_total_cost_of_shipments` but not from `get_cost_of_on_time_shipments`,
whose query has no `po_item.docstatus` filter. -/
def draftItem : POItem :=
  { name := "POI-D", parent := "PO-1", docstatus := 0, qty := 1,
    received_qty := 0, base_amount := 100, schedule_date := 5 }

/-- A receipt line against the draft order line, received on time, with a
positive base amount. -/
def priDraft : PRItem :=
  { name := "PRI-D", parent := "PR-1", purchase_order_item := "POI-D",
    docstatus := 1, qty := 1, received_qty := 1, rejected_qty := 0,
    base_rate := 7, base_amount := 7 }

/-- A store on which `get_cost_of_delayed_shipments` is negative: the total
side sees no confirmed line (0) while the on-time side sums the receipt line
against the draft order line (7). -/
def draftOrderStore : Store :=
  { purchase_orders := [po1], po_items := [draftItem], purchase_receipts := [prEarly],
    pr_items := [priDraft],
    rfqs := [], rfq_items := [], rfq_suppliers := [], supplier_quotations := [],
    sq_items := [], supplier_scores := [] }

/-- A confirmed purchase order of a different supplier `S2`, dated inside the
period. -/
def poOther : PurchaseOrder :=
  { name := "PO-9", supplier := "S2", docstatus := 1, transaction_date := 15,
    total_qty := 5 }

/-- An order line of `S2`'s order, scheduled inside the period. -/
def poiOther : POItem :=
  { name := "POI-9", parent := "PO-9", docstatus := 1, qty := 5,
    received_qty := 0, base_amount := 500, schedule_date := 10 }

/-- A receipt of `S1` posted on day 40, outside the period. -/
def prOther : PurchaseReceipt := { name := "PR-9", supplier := "S1", posting_date := 40 }

/-- The receipt line of the out-of-period receipt. -/
def priOther : PRItem :=
  { name := "PRI-9", parent := "PR-9", purchase_order_item := "POI-9",
    docstatus := 1, qty := 5, received_qty := 5, rejected_qty := 0,
    base_rate := 10, base_amount := 50 }

/-- An RFQ dated on day 40, outside the period. -/
def rfqOther : RFQ := { name := "RFQ-9", transaction_date := 40 }

/-- The item row of the out-of-period RFQ. -/
def rfqiOther : RFQItem := { name := "RFQI-9", parent := "RFQ-9", docstatus := 1 }

/-- The supplier row addressing the out-of-period RFQ to `S1`. -/
def rfqsupOther : RFQSupplier := { parent := "RFQ-9", supplier := "S1" }

/-- A quotation of `S1` answering the out-of-period RFQ. -/
def sqOther : SupplierQuotation :=
  { name := "SQ-9", supplier := "S1", transaction_date := 41 }

/-- The item row of that quotation, linked to the RFQ item. -/
def sqiOther : SQItem :=
  { name := "SQI-9", parent := "SQ-9", request_for_quotation_item := "RFQI-9",
    docstatus := 1 }

/-- A store that is not empty but holds no rows matching `janPeriod` for
supplier `S1`: the purchase order and its line belong to supplier `S2`, and
the `S1` receipt, RFQ and quotation rows are all dated outside the period. -/
def offMatchStore : Store :=
  { purchase_orders := [poOther], po_items := [poiOther],
    purchase_receipts := [prOther], pr_items := [priOther],
    rfqs := [rfqOther], rfq_items := [rfqiOther], rfq_suppliers := [rfqsupOther],
    supplier_quotations := [sqOther], sq_items := [sqiOther],
    supplier_scores := [] }

/-- A period for a supplier with no `Supplier Score` record. -/
def scorelessPeriod : Scorecard := { supplier := "S9", start_date := 0, end_date := 0 }

/-- A Python environment with no importable modules. -/
def emptyPyEnv : PyEnv := { modules := [], attrPaths := [] }

end ConcreteData

/-- Null-coalescing an SQL `SUM` is the plain sum over the row set (the sum
over an empty row set is 0 either way). -/
theorem pyOrZero_sqlSum (rows : List α) (f : α → Int) :
    pyOrZero (sqlSum rows f) = (rows.map f).sum := by
  cases rows <;> rfl

/-- A pair in a cross join has each component in its table. -/
theorem joinRows_mem {xs : List α} {ys : List β} {x : α} {y : β}
    (h : (x, y) ∈ joinRows xs ys) : x ∈ xs ∧ y ∈ ys := by
  simp only [joinRows, List.mem_flatMap, List.mem_map] at h
  obtain ⟨a, ha, b, hb, he⟩ := h
  obtain ⟨rfl, rfl⟩ := Prod.mk.injEq .. ▸ he
  exact ⟨ha, hb⟩

/-- A triple in a cross join has each component in its table. -/
theorem joinRows3_mem {xs : List α} {ys : List β} {zs : List γ}
    {x : α} {y : β} {z : γ} (h : (x, y, z) ∈ joinRows3 xs ys zs) :
    x ∈ xs ∧ y ∈ ys ∧ z ∈ zs := by
  simp only [joinRows3, List.mem_flatMap, List.mem_map] at h
  obtain ⟨a, ha, b, hb, c, hc, he⟩ := h
  obtain ⟨rfl, rfl, rfl⟩ : a = x ∧ b = y ∧ c = z := by
    simpa using he
  exact ⟨ha, hb, hc⟩

/-- A quadruple in a cross join has each component in its table. -/
theorem joinRows4_mem {xs : List α} {ys : List β} {zs : List γ} {ws : List δ}
    {x : α} {y : β} {z : γ} {w : δ}
    (h : (x, y, z, w) ∈ joinRows4 xs ys zs ws) :
    x ∈ xs ∧ y ∈ ys ∧ z ∈ zs ∧ w ∈ ws := by
  simp only [joinRows4, List.mem_flatMap, List.mem_map] at h
  obtain ⟨a, ha, b, hb, c, hc, d, hd, he⟩ := h
  obtain ⟨rfl, rfl, rfl, rfl⟩ : a = x ∧ b = y ∧ c = z ∧ d = w := by
    simpa using he
  exact ⟨ha, hb, hc, hd⟩

/-- A quintuple in a cross join has each component in its table. -/
theorem joinRows5_mem {xs : List α} {ys : List β} {zs : List γ} {ws : List δ}
    {vs : List ε} {x : α} {y : β} {z : γ} {w : δ} {v : ε}
    (h : (x, y, z, w, v) ∈ joinRows5 xs ys zs ws vs) :
    x ∈ xs ∧ y ∈ ys ∧ z ∈ zs ∧ w ∈ ws ∧ v ∈ vs := by
  simp only [joinRows5, List.mem_flatMap, List.mem_map] at h
  obtain ⟨a, ha, b, hb, c, hc, d, hd, e, hev, he⟩ := h
  obtain ⟨rfl, rfl, rfl, rfl, rfl⟩ : a = x ∧ b = y ∧ c = z ∧ d = w ∧ e = v := by
    simpa using he
  exact ⟨ha, hb, hc, hd, hev⟩

/-- The reading of `get_total_days_late` described by the spec: the sum over
received-late lines of `DATEDIFF(posting_date, schedule_date) * qty` plus the
sum over not-fully-received lines of
`DATEDIFF(end_date, schedule_date) * (qty - received_qty)`. -/
def total_days_late_spec (db : Store) (s : Scorecard) : Int :=
  ((deliveredLateRows db s).map fun (poi, pri, _, pr) =>
    (pr.posting_date - poi.schedule_date) * pri.qty).sum
  + ((itemWorkdaysRows db s).map fun (i, _) =>
    (s.end_date - i.schedule_date) * (i.qty - i.received_qty)).sum

/-- C1 (counterexample): over the empty store and the scenario period
`S1, 2024-01-01 .. 2024-01-31`, `get_total_workdays` returns 30, not 0, and
`get_all_quality_score` raises (no `Supplier Score` record exists) rather
than returning 0 — so not every catalogue metric returns exactly 0 on a
period with no matching rows. -/
theorem total_workdays_nonzero_on_empty_store :
    get_total_workdays janPeriod = 30 ∧ (30 : Int) ≠ 0 ∧
    get_all_quality_score emptyStore janPeriod =
      .error (.thrown (qualityMissingMsg "S1")) := by decide

/-- C1 (amended): for every scorecard period and every store that contains no
matching rows for it — no order-line/order pair of the supplier scheduled in
the period, no receipt-line/receipt pair of the supplier posted in the
period, no purchase order of the supplier dated in the period, and no RFQ
addressed to the supplier dated in the period — every catalogue metric
except `get_total_workdays` and the four `Supplier Score` aggregates returns
exactly 0 (never null); `get_total_workdays` instead returns the signed day
difference of the period. -/
theorem metrics_zero_without_matching_rows (db : Store) (s : Scorecard)
    (hpo : ∀ i ∈ db.po_items, ∀ po ∈ db.purchase_orders,
      ¬(po.supplier = s.supplier ∧ i.parent = po.name ∧
        s.start_date ≤ i.schedule_date ∧ i.schedule_date ≤ s.end_date))
    (hpr : ∀ pri ∈ db.pr_items, ∀ pr ∈ db.purchase_receipts,
      ¬(pr.supplier = s.supplier ∧ pri.parent = pr.name ∧
        s.start_date ≤ pr.posting_date ∧ pr.posting_date ≤ s.end_date))
    (hord : ∀ po ∈ db.purchase_orders,
      ¬(po.supplier = s.supplier ∧ s.start_date ≤ po.transaction_date ∧
        po.transaction_date ≤ s.end_date))
    (hrfq : ∀ rs ∈ db.rfq_suppliers, ∀ rfq ∈ db.rfqs,
      ¬(rs.supplier = s.supplier ∧ rs.parent = rfq.name ∧
        s.start_date ≤ rfq.transaction_date ∧ rfq.transaction_date ≤ s.end_date)) :
    get_item_workdays db s = 0 ∧
    get_total_cost_of_shipments db s = 0 ∧
    get_cost_of_on_time_shipments db s = 0 ∧
    get_cost_of_delayed_shipments db s = 0 ∧
    get_total_days_late db s = 0 ∧
    get_on_time_shipments db s = 0 ∧
    get_total_shipments db s = 0 ∧
    get_late_shipments db s = 0 ∧
    get_total_received db s = 0 ∧
    get_total_received_amount db s = 0 ∧
    get_total_received_items db s = 0 ∧
    get_total_rejected_amount db s = 0 ∧
    get_total_rejected_items db s = 0 ∧
    get_total_accepted_amount db s = 0 ∧
    get_total_accepted_items db s = 0 ∧
    get_ordered_qty db s = 0 ∧
    get_rfq_total_number db s = 0 ∧
    get_rfq_total_items db s = 0 ∧
    get_sq_total_number db s = 0 ∧
    get_sq_total_items db s = 0 ∧
    get_rfq_response_days db s = 0 ∧
    get_total_workdays s = s.end_date - s.start_date := by
  have hiw : itemWorkdaysRows db s = [] := by
    unfold itemWorkdaysRows
    rw [List.filter_eq_nil_iff]
    rintro ⟨i, po⟩ hm hp
    obtain ⟨h1, h2⟩ := joinRows_mem hm
    simp only [Bool.and_eq_true, beq_iff_eq, decide_eq_true_eq] at hp
    exact hpo i h1 po h2 (by tauto)
  have hcs : confirmedScheduledRows db s = [] := by
    unfold confirmedScheduledRows
    rw [List.filter_eq_nil_iff]
    rintro ⟨i, po⟩ hm hp
    obtain ⟨h1, h2⟩ := joinRows_mem hm
    simp only [Bool.and_eq_true, beq_iff_eq, decide_eq_true_eq] at hp
    exact hpo i h1 po h2 (by tauto)
  have hotc : onTimeCostRows db s = [] := by
    unfold onTimeCostRows
    rw [List.filter_eq_nil_iff]
    rintro ⟨poi, pri, po, pr⟩ hm hp
    obtain ⟨h1, h2, h3, h4⟩ := joinRows4_mem hm
    simp only [Bool.and_eq_true, beq_iff_eq, decide_eq_true_eq] at hp
    exact hpo poi h1 po h3 (by tauto)
  have hdl : deliveredLateRows db s = [] := by
    unfold deliveredLateRows
    rw [List.filter_eq_nil_iff]
    rintro ⟨poi, pri, po, pr⟩ hm hp
    obtain ⟨h1, h2, h3, h4⟩ := joinRows4_mem hm
    simp only [Bool.and_eq_true, beq_iff_eq, decide_eq_true_eq] at hp
    exact hpo poi h1 po h3 (by tauto)
  have hots : onTimeShipmentRows db s = [] := by
    unfold onTimeShipmentRows
    rw [List.filter_eq_nil_iff]
    rintro ⟨poi, pri, po, pr⟩ hm hp
    obtain ⟨h1, h2, h3, h4⟩ := joinRows4_mem hm
    simp only [Bool.and_eq_true, beq_iff_eq, decide_eq_true_eq] at hp
    exact hpo poi h1 po h3 (by tauto)
  have hrr : receiptRows db s = [] := by
    unfold receiptRows
    rw [List.filter_eq_nil_iff]
    rintro ⟨pri, pr⟩ hm hp
    obtain ⟨h1, h2⟩ := joinRows_mem hm
    simp only [Bool.and_eq_true, beq_iff_eq, decide_eq_true_eq] at hp
    exact hpr pri h1 pr h2 (by tauto)
  have hoq : orderedQtyRows db s = [] := by
    unfold orderedQtyRows
    rw [List.filter_eq_nil_iff]
    intro po hm hp
    simp only [Bool.and_eq_true, beq_iff_eq, decide_eq_true_eq] at hp
    exact hord po hm (by tauto)
  have hrf : rfqRows db s = [] := by
    unfold rfqRows
    rw [List.filter_eq_nil_iff]
    rintro ⟨ri, rs, rfq⟩ hm hp
    obtain ⟨h1, h2, h3⟩ := joinRows3_mem hm
    simp only [Bool.and_eq_true, beq_iff_eq, decide_eq_true_eq] at hp
    exact hrfq rs h2 rfq h3 (by tauto)
  have hsq : sqRows db s = [] := by
    unfold sqRows
    rw [List.filter_eq_nil_iff]
    rintro ⟨ri, si, sq, rs, rfq⟩ hm hp
    obtain ⟨h1, h2, h3, h4, h5⟩ := joinRows5_mem hm
    simp only [Bool.and_eq_true, beq_iff_eq, decide_eq_true_eq] at hp
    exact hrfq rs h4 rfq h5 (by tauto)
  simp [get_item_workdays, get_total_cost_of_shipments,
    get_cost_of_on_time_shipments, get_cost_of_delayed_shipments,
    get_total_days_late, get_on_time_shipments, get_total_shipments,
    get_late_shipments, get_total_received, get_total_received_amount,
    get_total_received_items, get_total_rejected_amount,
    get_total_rejected_items, get_total_accepted_amount,
    get_total_accepted_items, get_ordered_qty, get_rfq_total_number,
    get_rfq_total_items, get_sq_total_number, get_sq_total_items,
    get_rfq_response_days, get_total_workdays,
    hiw, hcs, hotc, hdl, hots, hrr, hoq, hrf, hsq, sqlSum, pyOrZero]

/-- C1 (witness): `offMatchStore` is not empty, but none of its rows match
`janPeriod` for supplier `S1` — the order rows belong to `S2` and the `S1`
receipt, RFQ and quotation rows are dated outside the period — so all 21
row-querying metrics are 0 while `get_total_workdays` is the day
difference. -/
theorem metrics_zero_without_matching_rows_witness :
    get_item_workdays offMatchStore janPeriod = 0 ∧
    get_total_cost_of_shipments offMatchStore janPeriod = 0 ∧
    get_cost_of_on_time_shipments offMatchStore janPeriod = 0 ∧
    get_cost_of_delayed_shipments offMatchStore janPeriod = 0 ∧
    get_total_days_late offMatchStore janPeriod = 0 ∧
    get_on_time_shipments offMatchStore janPeriod = 0 ∧
    get_total_shipments offMatchStore janPeriod = 0 ∧
    get_late_shipments offMatchStore janPeriod = 0 ∧
    get_total_received offMatchStore janPeriod = 0 ∧
    get_total_received_amount offMatchStore janPeriod = 0 ∧
    get_total_received_items offMatchStore janPeriod = 0 ∧
    get_total_rejected_amount offMatchStore janPeriod = 0 ∧
    get_total_rejected_items offMatchStore janPeriod = 0 ∧
    get_total_accepted_amount offMatchStore janPeriod = 0 ∧
    get_total_accepted_items offMatchStore janPeriod = 0 ∧
    get_ordered_qty offMatchStore janPeriod = 0 ∧
    get_rfq_total_number offMatchStore janPeriod = 0 ∧
    get_rfq_total_items offMatchStore janPeriod = 0 ∧
    get_sq_total_number offMatchStore janPeriod = 0 ∧
    get_sq_total_items offMatchStore janPeriod = 0 ∧
    get_rfq_response_days offMatchStore janPeriod = 0 ∧
    get_total_workdays janPeriod = janPeriod.end_date - janPeriod.start_date :=
  metrics_zero_without_matching_rows offMatchStore janPeriod
    (by decide) (by decide) (by decide) (by decide)

/-- C2 (code behaviour at the failing input): the query of
`get_on_time_shipments` requires `po_item.schedule_date <= pr.posting_date`,
so the spec scenario — order line `qty = 10`, `schedule_date` day 5, matching
receipt line posted day 4 — yields 0 on-time and 1 late shipment (the spec
and claim say 1 and 0), while the same receipt posted day 6 (late) is the one
counted as on-time. -/
theorem on_time_shipments_requires_schedule_le_posting :
    get_on_time_shipments earlyReceiptStore janPeriod = 0 ∧
    get_late_shipments earlyReceiptStore janPeriod = 1 ∧
    get_total_days_late earlyReceiptStore janPeriod = 0 ∧
    get_on_time_shipments lateReceiptStore janPeriod = 1 := by decide

/-- C3: `get_late_shipments` is by definition the difference of
`get_total_shipments` and `get_on_time_shipments`, for every store and
period. -/
theorem late_shipments_is_total_minus_on_time (db : Store) (s : Scorecard) :
    get_late_shipments db s =
      get_total_shipments db s - get_on_time_shipments db s := rfl

/-- C4: `get_cost_of_delayed_shipments` is by definition the difference of
`get_total_cost_of_shipments` and `get_cost_of_on_time_shipments`, and since
the two operands run over different join sets the difference can be negative:
on `draftOrderStore` the total side is 0 (the only order line is a draft)
while the on-time side sums a receipt line, giving a negative result. -/
theorem cost_of_delayed_is_total_minus_on_time :
    (∀ (db : Store) (s : Scorecard),
      get_cost_of_delayed_shipments db s =
        get_total_cost_of_shipments db s - get_cost_of_on_time_shipments db s) ∧
    get_cost_of_delayed_shipments draftOrderStore janPeriod < 0 :=
  ⟨fun _ _ => rfl, by decide⟩

/-- C5 (counterexample): the bare-name branch of the validator checks
`hasattr` on the module, so the path `"frappe"` — a module-level import, not
a registered catalogue metric function — is accepted rather than rejected. -/
theorem validator_accepts_non_catalogue_name :
    validate_path_exists (fun _ => .ok ()) "frappe" = .ok ∧
    catalogueFunctionNames.contains "frappe" = false := by decide

/-- C5 (amended): for a dot-free path, the validator accepts exactly the
module-level attribute names (the catalogue functions plus the module's
imports and classes), and raises the `VariablePathNotFound` error carrying
the path for every other bare name. -/
theorem validator_bare_name_checks_module_attrs
    (helper : String → Except PyExc Unit) (path : String)
    (h : containsDot path = false) :
    (validate_path_exists helper path = .ok ↔
      moduleAttrNames.contains path = true) ∧
    (moduleAttrNames.contains path = false →
      validate_path_exists helper path =
        .validationError (pathNotFoundMsg path)) := by
  unfold validate_path_exists
  rw [h]
  cases hc : moduleAttrNames.contains path <;> simp [hc]

/-- C5 (witness): the catalogue name `get_total_workdays` is dot-free and is
accepted. -/
theorem validator_bare_name_checks_module_attrs_witness :
    (validate_path_exists (fun _ => Except.ok ()) "get_total_workdays" = .ok ↔
      moduleAttrNames.contains "get_total_workdays" = true) ∧
    (moduleAttrNames.contains "get_total_workdays" = false →
      validate_path_exists (fun _ => Except.ok ()) "get_total_workdays" =
        .validationError (pathNotFoundMsg "get_total_workdays")) :=
  validator_bare_name_checks_module_attrs (fun _ => Except.ok ())
    "get_total_workdays" (by decide)

/-- C6 (counterexample): a dotted path whose root module does not exist makes
the helper fail with `ImportError`, which the validator propagates uncaught —
this resolution failure is not surfaced as the `VariablePathNotFound`
validation error. -/
theorem validator_propagates_import_error :
    import_string_path emptyPyEnv "missing_module.attr" = .error .importError ∧
    validate_path_exists (import_string_path emptyPyEnv) "missing_module.attr" =
      .uncaught .importError ∧
    validate_path_exists (import_string_path emptyPyEnv) "missing_module.attr" ≠
      .validationError (pathNotFoundMsg "missing_module.attr") := by decide

/-- C6 (amended): for a dotted path, an `AttributeError` from the import
helper — and only that failure — is surfaced as the `VariablePathNotFound`
validation error, whose message is the string `"Could not find path for "`
followed by the original path. -/
theorem validator_surfaces_attribute_error
    (helper : String → Except PyExc Unit) (path : String)
    (hdot : containsDot path = true)
    (hfail : helper path = .error .attributeError) :
    validate_path_exists helper path = .validationError (pathNotFoundMsg path) ∧
    pathNotFoundMsg path = "Could not find path for " ++ path := by
  constructor
  · unfold validate_path_exists
    rw [hdot]
    simp [hfail]
  · rfl

/-- C6 (witness): a concrete dotted path and a helper failing with
`AttributeError`. -/
theorem validator_surfaces_attribute_error_witness :
    validate_path_exists (fun _ => Except.error PyExc.attributeError) "a.b" =
      .validationError (pathNotFoundMsg "a.b") ∧
    pathNotFoundMsg "a.b" = "Could not find path for " ++ "a.b" :=
  validator_surfaces_attribute_error (fun _ => Except.error PyExc.attributeError)
    "a.b" (by decide) rfl

/-- C7: `get_total_days_late` equals the sum of the two aggregates the spec
describes — late-days over received-late lines plus late-days over
not-fully-received lines — with the null-coalescing of each aggregate being
the plain sum over its row set. -/
theorem total_days_late_two_aggregates (db : Store) (s : Scorecard) :
    get_total_days_late db s = total_days_late_spec db s := by
  unfold get_total_days_late total_days_late_spec
  rw [pyOrZero_sqlSum, pyOrZero_sqlSum]
  exact Int.add_comm _ _

/-- C8: when no `Supplier Score` record exists for the scorecard's supplier,
`get_all_quality_score` raises a blocking error whose message names the
supplier, while the other three score aggregates perform no such existence
check and instead fail with the `TypeError` from unpacking the `None` that
`frappe.db.get_value` returns. -/
theorem quality_score_alone_checks_existence (db : Store) (s : Scorecard)
    (h : findScore db s.supplier = none) :
    get_all_quality_score db s = .error (.thrown (qualityMissingMsg s.supplier)) ∧
    qualityMissingMsg s.supplier =
      qualityMissingMsgPre ++ s.supplier ++ qualityMissingMsgPost ∧
    get_all_delivery_score db s = .error .typeError ∧
    get_all_price_score db s = .error .typeError ∧
    get_all_customer_satisfaction_score db s = .error .typeError := by
  unfold get_all_quality_score get_all_delivery_score get_all_price_score
    get_all_customer_satisfaction_score
  rw [h]
  exact ⟨rfl, rfl, rfl, rfl, rfl⟩

/-- C8 (witness): supplier `S9` has no `Supplier Score` record in the empty
store. -/
theorem quality_score_alone_checks_existence_witness :
    get_all_quality_score emptyStore scorelessPeriod =
      .error (.thrown (qualityMissingMsg "S9")) ∧
    qualityMissingMsg "S9" =
      qualityMissingMsgPre ++ "S9" ++ qualityMissingMsgPost ∧
    get_all_delivery_score emptyStore scorelessPeriod = .error .typeError ∧
    get_all_price_score emptyStore scorelessPeriod = .error .typeError ∧
    get_all_customer_satisfaction_score emptyStore scorelessPeriod =
      .error .typeError :=
  quality_score_alone_checks_existence emptyStore scorelessPeriod rfl

/-- C9: `get_total_workdays` is the signed difference
`end_date - start_date`, unclamped, so it is negative whenever the period's
dates are inverted. -/
theorem total_workdays_signed_difference (s : Scorecard) :
    get_total_workdays s = s.end_date - s.start_date ∧
    (s.end_date < s.start_date → get_total_workdays s < 0) :=
  ⟨rfl, fun h => by unfold get_total_workdays; omega⟩

/-- C9 (witness): a period running from day 10 back to day 3 has -7
workdays. -/
theorem total_workdays_signed_difference_witness :
    get_total_workdays { supplier := "S1", start_date := 10, end_date := 3 } =
      (3 : Int) - 10 ∧
    get_total_workdays { supplier := "S1", start_date := 10, end_date := 3 } < 0 :=
  ⟨(total_workdays_signed_difference _).1,
   (total_workdays_signed_difference
     { supplier := "S1", start_date := 10, end_date := 3 }).2 (by decide)⟩

/-- C10: for a dotted path, only an `AttributeError` from the helper is
converted into the `VariablePathNotFound` validation error; any other
exception the helper raises propagates out of the validator unchanged and is
never that validation error. -/
theorem validator_converts_only_attribute_error
    (helper : String → Except PyExc Unit) (path : String) (e : PyExc)
    (hdot : containsDot path = true)
    (hfail : helper path = .error e)
    (hne : e ≠ .attributeError) :
    validate_path_exists helper path = .uncaught e ∧
    validate_path_exists helper path ≠
      .validationError (pathNotFoundMsg path) := by
  unfold validate_path_exists
  rw [hdot]
  cases e with
  | attributeError => exact absurd rfl hne
  | importError => simp [hfail]
  | typeError => simp [hfail]

/-- C10 (witness): a helper raising `ImportError` on a concrete dotted path
propagates uncaught. -/
theorem validator_converts_only_attribute_error_witness :
    validate_path_exists (fun _ => Except.error PyExc.importError) "a.b" =
      .uncaught .importError ∧
    validate_path_exists (fun _ => Except.error PyExc.importError) "a.b" ≠
      .validationError (pathNotFoundMsg "a.b") :=
  validator_converts_only_attribute_error (fun _ => Except.error PyExc.importError)
    "a.b" PyExc.importError (by decide) rfl (by decide)

end ErpnextScorecard
